import Mathlib

/-!
Verification of the litxplore backend's paper-identity, caching and cleanup
lifecycle against its natural-language specification.

The Python sources under `backend/app` are shallowly embedded: pure string
manipulation becomes functions on `String`/`List Char`, the uploads directory
becomes an explicit list of stored content hashes, every external effect
(arXiv search, PDF download, LLM call, Redis, PDF text extraction) becomes an
explicit outcome value threaded through an environment record, and Python
exceptions become `Except`-style result types distinguishing `HTTPException`
from other exceptions.
-/

/-! ## Python string primitives

The backend manipulates Python `str` values with `startswith`, `endswith`,
`lower`, `strip`, `replace`, `split`.  These are modelled on the character
list of a Lean `String` with structurally recursive (kernel-evaluable)
functions mirroring Python semantics. -/

/-- Model of Python `s.startswith(p)`. -/
def pyStartsWith (s p : String) : Bool :=
  p.data.isPrefixOf s.data

/-- Model of Python `s.endswith(p)`. -/
def pyEndsWith (s p : String) : Bool :=
  p.data.isSuffixOf s.data

/-- Model of Python `s.lower()` (ASCII case folding). -/
def pyLower (s : String) : String :=
  String.mk (s.data.map Char.toLower)

/-- Model of Python `s.strip()`: drop whitespace from both ends. -/
def pyStrip (s : String) : String :=
  String.mk (((s.data.dropWhile Char.isWhitespace).reverse.dropWhile Char.isWhitespace).reverse)

/-- Auxiliary loop for `pyReplaceAll` with explicit fuel so that the
recursion is structural (each step consumes at least one character when the
pattern is non-empty). -/
def pyReplaceAllAux (pat : List Char) : Nat → List Char → List Char
  | 0, l => l
  | _ + 1, [] => []
  | fuel + 1, c :: cs =>
    if pat ≠ [] ∧ pat.isPrefixOf (c :: cs) then
      pyReplaceAllAux pat fuel ((c :: cs).drop pat.length)
    else
      c :: pyReplaceAllAux pat fuel cs

/-- Model of Python `s.replace(pat, "")`: delete every non-overlapping
occurrence of `pat`, scanning left to right. -/
def pyReplaceAll (s pat : String) : String :=
  String.mk (pyReplaceAllAux pat.data s.data.length s.data)

/-- Auxiliary loop for splitting a character list at every occurrence of a
separator character, as Python `s.split(sep)` does for a one-character
separator. -/
def pySplitCharAux (sep : Char) : List Char → List Char → List (List Char)
  | [], acc => [acc.reverse]
  | x :: xs, acc =>
    if x == sep then acc.reverse :: pySplitCharAux sep xs []
    else pySplitCharAux sep xs (x :: acc)

/-- Model of Python `s.split(sep)` for a one-character separator. -/
def pySplitChar (s : String) (sep : Char) : List String :=
  (pySplitCharAux sep s.data []).map String.mk

/-! ## Shared data model

`Paper` mirrors `app/models/paper.py` (`published` is an abstract timestamp),
and `HErr` mirrors FastAPI's `HTTPException` as raised throughout the
backend, either with a plain string `detail` or with the structured payload
built by `app/utils/error_utils.py`. -/

/-- Detail payload of an HTTPException: either a plain string or the
structured `create_error_response` dictionary (status code, application
error code, message) from `error_utils.py`. -/
inductive ErrDetail where
  | plain (msg : String)
  | structured (errorCode : String) (msg : String)
deriving DecidableEq, Repr

/-- Model of a raised `fastapi.HTTPException`. -/
structure HErr where
  status : Nat
  detail : ErrDetail
deriving DecidableEq, Repr

/-- Model of `raise_validation_error` (`error_utils.py`): HTTP 422 with a
structured detail. -/
def raise_validation_error (msg errorCode : String) : HErr :=
  ⟨422, .structured errorCode msg⟩

/-- Model of `raise_not_found` (`error_utils.py`): HTTP 404 with a
structured detail. -/
def raise_not_found (msg : String) : HErr :=
  ⟨404, .structured "NOT_FOUND" msg⟩

/-- Model of `raise_internal_error` (`error_utils.py`): HTTP 500 with a
structured detail. -/
def raise_internal_error (msg errorCode : String) : HErr :=
  ⟨500, .structured errorCode msg⟩

/-- Model of `app/models/paper.py::Paper`. -/
structure Paper where
  id : String
  title : String
  authors : List String
  summary : String
  published : Nat
  url : Option String := none
deriving DecidableEq, Repr

/-! ## Content addressing (claim C4)

`PaperService.get_papers_by_ids` normalises an arXiv identifier with
`paper_id.split('v')[0]`. -/

/-- Model of `paper_id.split('v')[0]` from
`paper_service.py::get_papers_by_ids` (line 81): the arXiv base id used as
the paper identity. -/
def arxivBaseId (paper_id : String) : String :=
  (pySplitChar paper_id 'v').headD ""

/-! ## Task model (claim C10)

Mirrors `app/models/task.py`. -/

/-- Model of `app/models/task.py::TaskStatus`: the complete status
enumeration of a task. -/
inductive TaskStatus where
  | pending
  | running
  | completed
  | failed
deriving DecidableEq, Repr, Fintype

/-- String value carried by each `TaskStatus` member, as in the Python
`str, Enum` definition. -/
def TaskStatus.value : TaskStatus → String
  | .pending => "pending"
  | .running => "running"
  | .completed => "completed"
  | .failed => "failed"

/-- Model of `app/models/task.py::Task` (columns of the `tasks` table);
named `TaskRecord` here because `Task` is taken by the Lean core library. -/
structure TaskRecord where
  id : String
  user_id : Nat
  status : TaskStatus
  result_data : Option String := none
  error_message : Option String := none
  created_at : Nat
deriving DecidableEq, Repr

/-- Construction of a fresh task row: the `status` column declares
`default=TaskStatus.PENDING`, and `result_data` / `error_message` are
nullable with no default (see `task.py` lines 22-27). -/
def mkTask (id : String) (user_id : Nat) (created_at : Nat) : TaskRecord :=
  { id := id, user_id := user_id, status := .pending, created_at := created_at }

/-! ## Redis artifact cache (claim C5)

Mirrors `app/services/redis_service.py`.  The backing store is either
reachable (a key-value map) or down; every client call on a down store
raises `redis.RedisError`. -/

/-- State of the backing Redis store: reachable with a key-value map, or
unreachable (every operation raises `redis.RedisError`). -/
inductive RedisState where
  | down
  | up (store : String → Option String)

/-- Result of one Redis client call: a value, or a raised
`redis.RedisError`. -/
inductive RedisResult (α : Type) where
  | ok (a : α)
  | redisError

/-- Model of `redis_client.get`. -/
def redisGet : RedisState → String → RedisResult (Option String)
  | .down, _ => .redisError
  | .up store, k => .ok (store k)

/-- Model of `redis_client.setex`: returns the updated store state. -/
def redisSetex : RedisState → String → Nat → String → RedisResult RedisState
  | .down, _, _, _ => .redisError
  | .up store, k, _, v => .ok (.up (fun k' => if k' = k then some v else store k'))

/-- Model of a Python-level exception escaping a service call (anything not
caught inside the function). -/
inductive PyErr where
  | valueError (msg : String)
deriving DecidableEq, Repr

/-- Model of `RedisService.get_cached_review` (`redis_service.py` lines
17-25): `redis.RedisError` is caught and turned into `None`; a `json.loads`
failure on a present value is NOT caught. `parse` stands for `json.loads`,
returning `none` when it would raise. -/
def get_cached_review {α : Type} (parse : String → Option α)
    (st : RedisState) (topic : String) : Except PyErr (Option α) :=
  match redisGet st ("review:" ++ topic) with
  | .redisError => .ok none
  | .ok none => .ok none
  | .ok (some cached) =>
    match parse cached with
    | some v => .ok (some v)
    | none => .error (.valueError "json.loads failed")

/-- Model of `RedisService.cache_review` (`redis_service.py` lines 27-37):
returns `True` on success, `False` when `redis.RedisError` was raised; it
never lets the error escape. The final store state is returned alongside. -/
def cache_review {α : Type} (encode : α → String)
    (st : RedisState) (topic : String) (review_data : α) (expire_time : Nat) :
    Except PyErr (Bool × RedisState) :=
  match redisSetex st ("review:" ++ topic) expire_time (encode review_data) with
  | .redisError => .ok (false, st)
  | .ok st' => .ok (true, st')

/-! ## Streamed chat (claims C6, C7, C8)

Mirrors `paper_service.py::chat_with_paper_stream` (lines 163-298).  The
generator is embedded as a function from the request environment to the
list of yielded fragments plus the uploads directory left after the
`finally` block. -/

/-- One yielded fragment of the streamed chat response:
`\x7b"content": ..., "sources": [\x7b"page": ...\x7d]\x7d`. -/
structure Fragment where
  content : String
  sources : List Nat
deriving DecidableEq, Repr

/-- Auxiliary loop for `chunkAnswer` with explicit fuel (each step consumes
at least one character): `for i in range(0, len(response), chunk_size)`
with `chunk_size = 100`, attaching `sources` only when `i == 0`. -/
def chunkAnswerAux (srcs : List Nat) : Nat → List Char → List Fragment
  | 0, _ => []
  | _ + 1, [] => []
  | fuel + 1, c :: cs =>
    ⟨String.mk ((c :: cs).take 100), srcs⟩ :: chunkAnswerAux [] fuel ((c :: cs).drop 100)

/-- Model of the streaming loop of `chat_with_paper_stream` (lines
256-269): the full answer is re-chunked into 100-character pieces; the
source-page list rides only on the first piece. -/
def chunkAnswer (answer : String) (srcs : List Nat) : List Fragment :=
  chunkAnswerAux srcs answer.data.length answer.data

/-- Environment of one `chat_with_paper_stream` request: the uploads
directory, the outcome of the arXiv fetch-and-download stage, and the
outcome of the load/split/embed/retrieve/generate stage (answer text plus
source pages on success, stringified exception on failure). -/
structure ChatEnv where
  fs : List String
  arxivFetch : Except String Unit
  processing : Except String (String × List Nat)

/-- Model of `PaperService.chat_with_paper_stream`: returns the yielded
fragments and the uploads directory after the `finally` block (which
deletes the uploaded source file once consumed).  Every stage failure is
caught inside the generator and converted into a single yielded error
fragment. -/
def chat_with_paper_stream (env : ChatEnv) (paper_id : String) : List Fragment × List String :=
  if pyStartsWith paper_id "upload_" then
    let content_hash := pyReplaceAll paper_id "upload_"
    if env.fs.contains content_hash then
      -- temp copy is made, processing runs, `finally` deletes the temp copy
      -- and the original uploaded file
      match env.processing with
      | .ok (answer, pages) =>
        (chunkAnswer answer pages, env.fs.filter (fun h => h != content_hash))
      | .error m =>
        ([⟨"Error processing document: " ++ m, []⟩], env.fs.filter (fun h => h != content_hash))
    else
      ([⟨"Error: Uploaded PDF file not found", []⟩], env.fs)
  else
    match env.arxivFetch with
    | .error m => ([⟨"Error fetching paper: " ++ m, []⟩], env.fs)
    | .ok _ =>
      match env.processing with
      | .ok (answer, pages) => (chunkAnswer answer pages, env.fs)
      | .error m => ([⟨"Error processing document: " ++ m, []⟩], env.fs)

/-! ## Paper Store lookups (claim C7)

Mirrors `analysis_service.py::AnalysisService._fetch_paper` (lines 139-197)
and `paper_service.py::get_uploaded_papers` / `get_paper_metadata`
(lines 385-432). -/

/-- Model of one arXiv search record as consumed by `_fetch_paper`. -/
structure ArxivRecord where
  entry_id : String
  title : String
  authors : List String
  summary : String
  published : Nat
  pdf_url : String
deriving DecidableEq, Repr

/-- Last path segment of an entry URL, modelling Python
`entry_id.split("/")[-1]`. -/
def lastSegment (s : String) : String :=
  (pySplitChar s '/').getLastD ""

/-- Environment for `_fetch_paper`: the uploads directory with file
contents, the arXiv search outcome (`.error` when the client raises,
`.ok none` for `StopIteration`, i.e. no result), and the PDF download
outcome. -/
structure FetchEnv where
  fs : List String
  fileBytes : String → List UInt8
  arxivResult : Except String (Option ArxivRecord)
  download : Except String (List UInt8)
  now : Nat

/-- Model of `AnalysisService._fetch_paper`: resolves a paper identity to
metadata plus PDF bytes, failing with 404 when the backing upload file or
arXiv record is absent and with 500 on a network/client failure. -/
def fetch_paper (env : FetchEnv) (paper_id : String) : Except HErr (Paper × List UInt8) :=
  if pyStartsWith paper_id "upload_" then
    let content_hash := pyReplaceAll paper_id "upload_"
    if env.fs.contains content_hash then
      .ok (⟨paper_id, "Uploaded Paper", ["Unknown"], "", env.now,
            some ("/uploads/" ++ content_hash ++ ".pdf")⟩,
           env.fileBytes content_hash)
    else
      .error ⟨404, .plain ("Uploaded paper not found: " ++ paper_id)⟩
  else
    match env.arxivResult with
    | .error m => .error ⟨500, .plain ("Failed to fetch paper: " ++ m)⟩
    | .ok none => .error ⟨404, .plain ("Paper not found on arXiv: " ++ paper_id)⟩
    | .ok (some r) =>
      match env.download with
      | .error m => .error ⟨500, .plain ("Failed to fetch paper: " ++ m)⟩
      | .ok bytes =>
        .ok (⟨lastSegment r.entry_id, r.title, r.authors, r.summary, r.published,
              some r.pdf_url⟩, bytes)

/-- Model of Python slicing `s[:n]`. -/
def pyTake (n : Nat) (s : String) : String :=
  String.mk (s.data.take n)

/-- Model of `PaperService.get_paper_metadata` (lines 407-432): cheaply
reconstructed metadata for an uploaded paper; a text-extraction failure is
wrapped into an HTTPException 500.  `extractText` is the per-hash outcome
of loading `uploads/\x7bcontent_hash\x7d.pdf` and joining its page texts. -/
def get_paper_metadata (extractText : String → Except String String)
    (now : Nat) (content_hash : String) : Except HErr Paper :=
  match extractText content_hash with
  | .error m => .error ⟨500, .plain ("Failed to retrieve paper metadata: " ++ m)⟩
  | .ok full_text =>
    .ok ⟨"upload_" ++ content_hash, "Uploaded Paper", ["Unknown Author"],
         pyTake 500 full_text ++ "...", now,
         some ("/uploads/" ++ content_hash ++ ".pdf")⟩

/-- Model of `PaperService.get_uploaded_papers` (lines 385-405): non-upload
ids and ids whose backing file is absent are silently skipped; a metadata
failure propagates as the HTTPException raised by `get_paper_metadata`. -/
def get_uploaded_papers (extractText : String → Except String String)
    (now : Nat) (fs : List String) : List String → Except HErr (List Paper)
  | [] => .ok []
  | pid :: rest =>
    if !(pyStartsWith pid "upload_") then
      get_uploaded_papers extractText now fs rest
    else
      let content_hash := pyReplaceAll pid "upload_"
      if !(fs.contains content_hash) then
        get_uploaded_papers extractText now fs rest
      else
        match get_paper_metadata extractText now content_hash with
        | .error e => .error e
        | .ok p =>
          match get_uploaded_papers extractText now fs rest with
          | .error e => .error e
          | .ok ps => .ok (p :: ps)

/-! ## PDF upload endpoint (claim C3)

Mirrors `app/api/v1/endpoints/papers.py::upload_pdf` (lines 111-184) and
`is_valid_pdf` (lines 21-31). -/

/-- Model of `MAX_FILE_SIZE = 15 * 1024 * 1024` (`papers.py` line 19). -/
def MAX_FILE_SIZE : Nat := 15 * 1024 * 1024

/-- The PDF magic signature `%PDF-`. -/
def pdfMagic : List UInt8 := [0x25, 0x50, 0x44, 0x46, 0x2D]

/-- Model of `papers.py::is_valid_pdf`: at least 8 bytes and the first 8
bytes start with `%PDF-`. -/
def is_valid_pdf (content : List UInt8) : Bool :=
  decide (8 ≤ content.length) && pdfMagic.isPrefixOf (content.take 8)

/-- Auxiliary loop with explicit fuel splitting a byte string into the
successive results of `await file.read(1024 * 1024)`. -/
def readChunksAux : Nat → List UInt8 → List (List UInt8)
  | 0, _ => []
  | _ + 1, [] => []
  | fuel + 1, b :: bs =>
    (b :: bs).take 1048576 :: readChunksAux fuel ((b :: bs).drop 1048576)

/-- The 1 MiB chunks in which `upload_pdf` streams the request body. -/
def readChunks (bytes : List UInt8) : List (List UInt8) :=
  readChunksAux bytes.length bytes

/-- Model of the streaming size-check loop of `upload_pdf` (lines 149-162):
each chunk first bumps `file_size`; if the running total exceeds the limit a
validation error is raised before the chunk is written, otherwise the chunk
is appended to the temp file.  Returns the bytes written and whether the
ceiling was crossed. -/
def writeChunks (limit : Nat) : Nat → List (List UInt8) → List UInt8 × Bool
  | _, [] => ([], false)
  | file_size, chunk :: rest =>
    if chunk.isEmpty then ([], false)
    else if limit < file_size + chunk.length then ([], true)
    else
      (chunk ++ (writeChunks limit (file_size + chunk.length) rest).1,
       (writeChunks limit (file_size + chunk.length) rest).2)

/-- Decidable equality for `Except`, needed to evaluate concrete request
outcomes. -/
instance exceptDecEq {ε α : Type} [DecidableEq ε] [DecidableEq α] :
    DecidableEq (Except ε α)
  | .error e, .error e' =>
    if h : e = e' then isTrue (by rw [h]) else isFalse (by simp [h])
  | .error _, .ok _ => isFalse (by simp)
  | .ok _, .error _ => isFalse (by simp)
  | .ok a, .ok a' =>
    if h : a = a' then isTrue (by rw [h]) else isFalse (by simp [h])

/-- Observable outcome of one `upload_pdf` request: the HTTP result, the
bytes that were ever written to the temp file, and the temp file present on
disk at the given moment (`some` = exists with that content). -/
structure UploadOutcome where
  result : Except HErr Paper
  written : List UInt8
  tempFile : Option (List UInt8)
deriving DecidableEq, Repr

/-- Body of `upload_pdf` before its `finally` block runs: validation of
filename, extension, magic header, then the streaming size-checked copy
into the temp file, then `process_uploaded_pdf` (whose outcome is the
`processResult` parameter; it raises only HTTPException).  `tempFile`
reflects the temp file left on disk when the body exits. -/
def upload_pdf_body (filename : Option String) (bytes : List UInt8)
    (processResult : Except HErr Paper) : UploadOutcome :=
  match filename with
  | none =>
    ⟨.error (raise_validation_error "No file provided" "VALIDATION_ERROR"), [], none⟩
  | some fname =>
    if fname = "" then
      ⟨.error (raise_validation_error "No file provided" "VALIDATION_ERROR"), [], none⟩
    else if !(pyEndsWith (pyLower fname) ".pdf") then
      ⟨.error (raise_validation_error "File must be a PDF" "VALIDATION_ERROR"), [], none⟩
    else if !(is_valid_pdf (bytes.take 2048)) then
      ⟨.error (raise_validation_error
          "Invalid file content. The file does not appear to be a valid PDF"
          "VALIDATION_ERROR"), [], none⟩
    else
      let w := (writeChunks MAX_FILE_SIZE 0 (readChunks bytes)).1
      if (writeChunks MAX_FILE_SIZE 0 (readChunks bytes)).2 then
        ⟨.error (raise_validation_error
            "File size exceeds the maximum allowed size of 15MB"
            "VALIDATION_ERROR"), w, some w⟩
      else
        match processResult with
        | .error e => ⟨.error e, w, some w⟩
        | .ok paper => ⟨.ok paper, w, some w⟩

/-- Model of `upload_pdf` including its `finally` block, which removes the
temp file on every exit path (`papers.py` lines 178-184). -/
def upload_pdf (filename : Option String) (bytes : List UInt8)
    (processResult : Except HErr Paper) : UploadOutcome :=
  let body := upload_pdf_body filename bytes processResult
  { body with tempFile := none }

/-! ## Upload ingestion (claim C9)

Mirrors `paper_service.py::process_uploaded_pdf` (lines 300-383). -/

/-- Model of Python `sep.join(parts)`. -/
def pyJoin (sep : String) : List String → String
  | [] => ""
  | [s] => s
  | s :: rest => s ++ sep ++ pyJoin sep rest

/-- Environment of one `process_uploaded_pdf` call: the PyPDFLoader outcome
on the staged temp file, the LLM metadata-extraction response
(`llm.invoke(...).content` as a function of the prompt), the wall clock and
the client-supplied filename. -/
structure PdfUploadEnv where
  loadPdf : Except String (List String)
  llm : String → String
  now : Nat
  filename : Option String

/-- The metadata-extraction prompt of `process_uploaded_pdf`
(lines 325-333). -/
def uploadExtractionPrompt : String :=
  "Extract the following information from this academic paper:\n            1. Title\n            2. Authors (comma-separated)\n            3. Brief summary (2-3 sentences)\n            \n            Format the response exactly as:\n            Title: <extracted title>\n            Authors: <extracted authors>\n            Summary: <extracted summary>"

/-- Line-by-line parse of the LLM metadata response (lines 338-350):
successive `Title:` / `Authors:` / `Summary:` lines overwrite the
defaults. -/
def parseExtraction (result : String) : String × List String × String :=
  (pySplitChar result '\n').foldl
    (fun acc line =>
      if pyStartsWith line "Title:" then
        (pyStrip (pyReplaceAll line "Title:"), acc.2.1, acc.2.2)
      else if pyStartsWith line "Authors:" then
        (acc.1, (pySplitChar (pyReplaceAll line "Authors:") ',').map pyStrip, acc.2.2)
      else if pyStartsWith line "Summary:" then
        (acc.1, acc.2.1, pyStrip (pyReplaceAll line "Summary:"))
      else acc)
    ("Research Paper", [], "")

/-- Model of `PaperService.process_uploaded_pdf`: stages the bytes, extracts
text, derives the content-hash identity (`sha256hex` stands for
`hashlib.sha256(...).hexdigest()`, a pure function of the raw bytes),
extracts metadata via the LLM, writes the PDF under the hash-derived path
and returns the `Paper`.  Returns the updated uploads directory; every
failure is wrapped into an HTTPException 500. -/
def process_uploaded_pdf (sha256hex : List UInt8 → String) (env : PdfUploadEnv)
    (fs : List String) (content : List UInt8) : Except HErr Paper × List String :=
  match env.loadPdf with
  | .error m => (.error ⟨500, .plain ("Error processing PDF: " ++ m)⟩, fs)
  | .ok pages =>
    let full_text := pyJoin "\n" pages
    let content_hash := pyTake 10 (sha256hex content)
    let result := env.llm (uploadExtractionPrompt ++ "\n\nText:" ++ pyTake 2000 full_text)
    let (title, authors, summary) := parseExtraction result
    let fs' := if fs.contains content_hash then fs else content_hash :: fs
    let title := if title = "" then env.filename.getD "Research Paper" else title
    let title := if title = "" then "Research Paper" else title
    let authors := if authors.isEmpty then ["Unknown Author"] else authors
    let summary := if summary = "" then "No summary available." else summary
    (.ok ⟨"upload_" ++ content_hash, title, authors, summary, env.now,
          some ("/uploads/" ++ content_hash ++ ".pdf")⟩, fs')

/-! ## Review generation and cleanup (claim C1)

Mirrors `app/api/v1/endpoints/review.py::generate_review` (lines 20-109)
and `cleanup_uploaded_pdfs` (lines 194-212). -/

/-- Outcome of the `langchain_service.generate_review` call: success, a
raised `HTTPException`, a raised ordinary `Exception`, or a raised
`BaseException` that is not an `Exception` (e.g. a cancellation), which
skips both `except` clauses and reaches only the `finally` block. -/
inductive GenOutcome where
  | ok (text : String)
  | httpExc (e : HErr)
  | exc (msg : String)
  | baseExc (msg : String)
deriving DecidableEq, Repr

/-- Result of one HTTP request as the caller sees it: a response body, an
`HTTPException` mapped to an error response, or an uncaught
non-`Exception` propagating out of the handler. -/
inductive ReqOutcome (α : Type) where
  | ok (a : α)
  | httpError (e : HErr)
  | uncaught (msg : String)
deriving DecidableEq, Repr

/-- Model of `app/models/review.py`-style `ReviewResponse`. -/
structure ReviewResponse where
  review : String
  citations : List Paper
  topic : String
deriving DecidableEq, Repr

/-- Deletion of the file backing one paper id, as one iteration of the
`cleanup_uploaded_pdfs` loop: only ids with the `upload_` marker are
considered, and `os.remove` runs only when the file exists. -/
def removeUpload (fs : List String) (pid : String) : List String :=
  if pyStartsWith pid "upload_" then
    let content_hash := pyReplaceAll pid "upload_"
    if fs.contains content_hash then fs.filter (fun h => h != content_hash) else fs
  else fs

/-- Model of `cleanup_uploaded_pdfs` when no OS error interrupts the loop:
best-effort deletion of all files backing the given upload ids. -/
def cleanup_uploaded_pdfs (paper_ids : List String) (fs : List String) : List String :=
  paper_ids.foldl removeUpload fs

/-- Model of one `cleanup_uploaded_pdfs` call whose loop an OS error may
interrupt after `k` ids were processed (the surrounding `try/except` inside
`cleanup_uploaded_pdfs` swallows the error, so the call still returns
normally; `k ≥ paper_ids.length` is an uninterrupted, fully successful
run). -/
def cleanupAttempt (k : Nat) (paper_ids : List String) (fs : List String) : List String :=
  cleanup_uploaded_pdfs (paper_ids.take k) fs

/-- Environment of one `generate_review` request: the request payload, the
uploads directory, the outcomes of the arXiv fetch
(`PaperService.get_papers_by_ids`, which wraps every failure into an
HTTPException), of the per-hash text extraction used by
`get_uploaded_papers`, and of the LangChain generation call, plus how many
ids each cleanup call processes before an OS error interrupts it
(indexed by execution order within the request). -/
structure ReviewEnv where
  paper_ids : List String
  topic : String
  fs : List String
  arxivFetch : Except HErr (List Paper)
  extractText : String → Except String String
  now : Nat
  gen : GenOutcome
  cleanupSteps : Nat → Nat

/-- Model of `review.py::generate_review`: returns the request outcome and
the uploads directory after all cleanup attempts.  Cleanup of uploaded
files is attempted on the success path, in both `except` branches and in
the `finally` block; every cleanup failure is swallowed. -/
def generate_review (env : ReviewEnv) : ReqOutcome ReviewResponse × List String :=
  let uploaded_ids := env.paper_ids.filter (fun pid => pyStartsWith pid "upload_")
  let cleanupIf := fun (k : Nat) (fs : List String) =>
    if uploaded_ids.isEmpty then fs else cleanupAttempt k uploaded_ids fs
  -- exit through `raise`/`return` after a caught exception or a success:
  -- the branch's cleanup (first executed attempt) then the `finally` one
  let twoCleanups := fun (fs : List String) =>
    cleanupIf (env.cleanupSteps 1) (cleanupIf (env.cleanupSteps 0) fs)
  if env.paper_ids.isEmpty then
    (.httpError (raise_validation_error "No paper IDs provided" "VALIDATION_ERROR"),
     twoCleanups env.fs)
  else
    let arxiv_ids := env.paper_ids.filter (fun pid => !(pyStartsWith pid "upload_"))
    match (if arxiv_ids.isEmpty then Except.ok ([] : List Paper) else env.arxivFetch) with
    | .error e => (.httpError e, twoCleanups env.fs)
    | .ok arxiv_papers =>
      match (if uploaded_ids.isEmpty then Except.ok ([] : List Paper)
             else get_uploaded_papers env.extractText env.now env.fs uploaded_ids) with
      | .error e => (.httpError e, twoCleanups env.fs)
      | .ok uploaded_papers =>
        let papers := arxiv_papers ++ uploaded_papers
        if papers.isEmpty then
          (.httpError (raise_not_found "No papers found with the provided IDs"),
           twoCleanups env.fs)
        else
          match env.gen with
          | .httpExc e => (.httpError e, twoCleanups env.fs)
          | .exc m =>
            (.httpError (raise_internal_error ("Error generating review: " ++ m)
                "INTERNAL_ERROR"),
             twoCleanups env.fs)
          | .baseExc m =>
            -- skips both `except` clauses; only the `finally` cleanup runs
            (.uncaught m, cleanupIf (env.cleanupSteps 0) env.fs)
          | .ok text =>
            (.ok ⟨text, papers, env.topic⟩, twoCleanups env.fs)

/-- The request outcome of `generate_review` as determined by the request
payload and the primary stage outcomes alone, spelling out that the
response never depends on how the cleanup calls fare. -/
def reviewPrimary (env : ReviewEnv) : ReqOutcome ReviewResponse :=
  if env.paper_ids.isEmpty then
    .httpError (raise_validation_error "No paper IDs provided" "VALIDATION_ERROR")
  else
    match (if (env.paper_ids.filter (fun pid => !(pyStartsWith pid "upload_"))).isEmpty
           then Except.ok ([] : List Paper) else env.arxivFetch) with
    | .error e => .httpError e
    | .ok arxiv_papers =>
      match (if (env.paper_ids.filter (fun pid => pyStartsWith pid "upload_")).isEmpty
             then Except.ok ([] : List Paper)
             else get_uploaded_papers env.extractText env.now env.fs
               (env.paper_ids.filter (fun pid => pyStartsWith pid "upload_"))) with
      | .error e => .httpError e
      | .ok uploaded_papers =>
        if (arxiv_papers ++ uploaded_papers).isEmpty then
          .httpError (raise_not_found "No papers found with the provided IDs")
        else
          match env.gen with
          | .httpExc e => .httpError e
          | .exc m =>
            .httpError (raise_internal_error ("Error generating review: " ++ m)
              "INTERNAL_ERROR")
          | .baseExc m => .uncaught m
          | .ok text => .ok ⟨text, arxiv_papers ++ uploaded_papers, env.topic⟩

/-! ## Structured analysis (claim C2)

Mirrors `app/services/analysis_service.py`.  The LLM helper
`invoke_llm_with_retry` is imported there from
`app/services/analysis_helpers.py`, which is not among the provided
sources; it is modelled from the spec below. -/

/-- Model of `app/models/analysis.py::AtAGlanceAnalysis` as populated by
`analysis_service.py`. -/
structure AtAGlanceAnalysis where
  title : String
  authors : List String
  affiliations : List String
  abstract : String
  keywords : List String
  introduction : String
  related_work : String
  problem_statement : String
  methodology : String
  results : String
  discussion : String
  limitations : List String
  future_work : List String
  conclusion : String
deriving DecidableEq, Repr

/-- Model of `SuggestedQuestion`. -/
structure SuggestedQuestion where
  question : String
  category : String
deriving DecidableEq, Repr

/-- Model of `FigureExplanation`. -/
structure FigureExplanation where
  label : String
  caption : String
  explanation : String
  page : Nat
deriving DecidableEq, Repr

/-- Model of `KeyInsightsAnalysis`. -/
structure KeyInsightsAnalysis where
  figures : List FigureExplanation
  limitations : List String
  future_work : List String
deriving DecidableEq, Repr

/-- Model of `InDepthAnalysis`. -/
structure InDepthAnalysis where
  introduction : String
  related_work : String
  problem_statement : String
  methodology : String
  results : String
  discussion : String
  limitations : String
  conclusion_future_work : String
deriving DecidableEq, Repr

/-- Model of `PaperMetadata`. -/
structure PaperMetadata where
  paper_id : String
  title : String
  authors : List String
  year : Option Nat
  url : Option String
  source : String
deriving DecidableEq, Repr

/-- Model of `PaperAnalysis`. -/
structure PaperAnalysis where
  paper : PaperMetadata
  at_a_glance : AtAGlanceAnalysis
  key_insights : Option KeyInsightsAnalysis
  suggested_questions : List SuggestedQuestion
  in_depth : Option InDepthAnalysis := none
  generated_at : Nat
  schema_version : String
  model_tag : String
deriving DecidableEq, Repr

/-- Modelled from the spec: `invoke_llm_with_retry` is defined in
`app/services/analysis_helpers.py`, which is absent from the provided
sources (only its import and call sites appear).  Spec section 7: "the
bounded LLM-call retry used specifically for structured-output parsing —
capped at a small fixed attempt count with fallback content on
exhaustion".  `attempts` lists the parse outcome of each bounded attempt;
the first successfully parsed response wins and the fallback is returned on
exhaustion. -/
def invoke_llm_with_retry {α : Type} (attempts : List (Option α)) (fallback : α) : α :=
  match attempts.filterMap id with
  | [] => fallback
  | v :: _ => v

/-- The hard-coded fallback `AtAGlanceAnalysis` of `_generate_at_a_glance`
and of the `analyze_paper` catch-all branch (lines 242-257 and 460-475). -/
def fallbackAtAGlance : AtAGlanceAnalysis :=
  { title := "Unable to extract title"
    authors := ["Unknown"]
    affiliations := ["Unknown"]
    abstract := "Unable to extract abstract"
    keywords := ["Unable to extract keywords"]
    introduction := "Unable to extract introduction"
    related_work := "Unable to extract related work"
    problem_statement := "Unable to extract problem statement"
    methodology := "Unable to extract methodology"
    results := "Unable to extract results"
    discussion := "Unable to extract discussion"
    limitations := ["Unable to extract limitations"]
    future_work := ["Unable to extract future work"]
    conclusion := "Unable to extract conclusion" }

/-- The hard-coded fallback question list of `_generate_suggested_questions`
and of the `analyze_paper` catch-all branch (lines 287-293 and 477-483). -/
def fallbackSuggestedQuestions : List SuggestedQuestion :=
  [⟨"What is the main methodology used in this paper?", "methodology"⟩,
   ⟨"What are the key results presented?", "results"⟩,
   ⟨"What limitations does the paper acknowledge?", "limitations"⟩,
   ⟨"What are the practical applications of this research?", "applications"⟩,
   ⟨"What datasets were used in this study?", "datasets"⟩]

/-- The fallback `InDepthAnalysis` passed to `invoke_llm_with_retry` by
`compute_in_depth` (lines 642-651). -/
def fallbackInDepth : InDepthAnalysis :=
  { introduction := "The analysis could not be generated due to technical issues. Please try again or refresh the page."
    related_work := "The analysis could not be generated due to technical issues. Please try again or refresh the page."
    problem_statement := "The analysis could not be generated due to technical issues. Please try again or refresh the page."
    methodology := "The analysis could not be generated due to technical issues. Please try again or refresh the page."
    results := "The analysis could not be generated due to technical issues. Please try again or refresh the page."
    discussion := "The analysis could not be generated due to technical issues. Please try again or refresh the page."
    limitations := "The analysis could not be generated due to technical issues. Please try again or refresh the page."
    conclusion_future_work := "The analysis could not be generated due to technical issues. Please try again or refresh the page." }

/-- Page-numbered concatenation built by `_extract_text_with_pages`
(lines 199-212). -/
def pageConcat : Nat → List String → String
  | _, [] => ""
  | i, p :: rest => "\n--- Page " ++ toString (i + 1) ++ " ---\n" ++ p ++ pageConcat (i + 1) rest

/-- Page map built by `_extract_text_with_pages`: page index to page
text. -/
def pageMap (pages : List String) : List (Nat × String) :=
  pages.enum

/-- Model of `AnalysisService._extract_text_with_pages`: any loader failure
is wrapped into an HTTPException 400. -/
def extract_text_with_pages (loadPages : Except String (List String)) :
    Except HErr (String × List (Nat × String)) :=
  match loadPages with
  | .error m => .error ⟨400, .plain ("Failed to extract text from PDF: " ++ m)⟩
  | .ok pages => .ok (pageConcat 0 pages, pageMap pages)

/-- Anchored match of the figure/table label pattern
`^(Figure|Fig\.|Table|Tab\.)\s+(\d+)[:\.\s]` with `re.IGNORECASE`, from
`_detect_figures_and_tables` (line 298). -/
def figureLabelMatch (line : String) : Bool :=
  let low := line.data.map Char.toLower
  let rest? := ["figure".data, "fig.".data, "table".data, "tab.".data].findSome?
    (fun kw => if kw.isPrefixOf low then some (low.drop kw.length) else none)
  match rest? with
  | none => false
  | some rest =>
    let ws := rest.takeWhile Char.isWhitespace
    let rest := rest.dropWhile Char.isWhitespace
    if ws.isEmpty then false
    else
      let digits := rest.takeWhile Char.isDigit
      let rest := rest.dropWhile Char.isDigit
      if digits.isEmpty then false
      else
        match rest with
        | [] => false
        | c :: _ => c == ':' || c == '.' || c.isWhitespace

/-- Model of `AnalysisService._detect_figures_and_tables` (lines 296-308):
per page, every line matching the label pattern is collected (stripped)
with its page number. -/
def detect_figures_and_tables (page_map : List (Nat × String)) : List (String × Nat) :=
  page_map.flatMap
    (fun pt => ((pySplitChar pt.2 '\n').filter figureLabelMatch).map (fun ln => (pyStrip ln, pt.1)))

/-- Environment of the analysis endpoints: the Paper Store environment, the
cached-analysis lookup outcome (`none` covers cache miss, absent cache and
swallowed cache errors), the PyPDFLoader outcome on the fetched bytes, the
parse outcome of every bounded LLM attempt per stage, whether the in-depth
prompt template was found at startup, an optional non-HTTPException
exception raised during each endpoint's generation/assembly phase, and the
configured schema version and model tag. -/
structure AnalysisEnv where
  fetch : FetchEnv
  cacheHit : Option PaperAnalysis
  loadPages : Except String (List String)
  glanceAttempts : List (Option AtAGlanceAnalysis)
  questionAttempts : List (Option (List SuggestedQuestion))
  figureAttempts : String → List (Option String)
  limAttempts : List (Option (List String × List String))
  inDepthAttempts : List (Option InDepthAnalysis)
  inDepthTemplateLoaded : Bool
  unexpected : Option String
  kiUnexpected : Option String
  idUnexpected : Option String
  now : Nat
  promptVersion : String
  modelTag : String

/-- The `PaperMetadata` assembled by `analyze_paper` from a fetched paper
(lines 396-403); `published` abstracts the datetime to its year. -/
def metadataOf (paper_id : String) (paper : Paper) : PaperMetadata :=
  { paper_id := paper.id
    title := paper.title
    authors := paper.authors
    year := some paper.published
    url := paper.url
    source := if pyStartsWith paper_id "upload_" then "upload" else "arxiv" }

/-- Model of `AnalysisService.analyze_paper` (lines 353-495).  A fetch
failure or a text-extraction failure is an `HTTPException` and is re-raised
by the `except HTTPException: raise` clause; any other exception during the
generation/assembly phase (`env.unexpected`) falls into the catch-all,
which re-fetches metadata and returns the labelled fallback payload instead
of an error. -/
def analyze_paper (env : AnalysisEnv) (paper_id : String) (force_refresh : Bool) :
    Except HErr PaperAnalysis :=
  match fetch_paper env.fetch paper_id with
  | .error e => .error e
  | .ok (paper, _bytes) =>
    match (if force_refresh then none else env.cacheHit) with
    | some cached => .ok cached
    | none =>
      match extract_text_with_pages env.loadPages with
      | .error e => .error e
      | .ok (_full_text, _page_map) =>
        match env.unexpected with
        | some _ =>
          -- catch-all branch (lines 432-495): fetch metadata again, fall
          -- back to a placeholder if even that fails, and return the
          -- labelled fallback payload
          let metadata :=
            match fetch_paper env.fetch paper_id with
            | .ok (p, _) => metadataOf paper_id p
            | .error _ =>
              { paper_id := paper_id, title := "Analysis Unavailable", authors := []
                year := none, url := none
                source := if pyStartsWith paper_id "upload_" then "upload" else "arxiv" }
          .ok { paper := metadata
                at_a_glance := fallbackAtAGlance
                key_insights := none
                suggested_questions := fallbackSuggestedQuestions
                generated_at := env.now
                schema_version := env.promptVersion
                model_tag := env.modelTag }
        | none =>
          let at_a_glance := invoke_llm_with_retry env.glanceAttempts fallbackAtAGlance
          let suggested_questions :=
            invoke_llm_with_retry env.questionAttempts fallbackSuggestedQuestions
          .ok { paper := metadataOf paper_id paper
                at_a_glance := at_a_glance
                key_insights := none
                suggested_questions := suggested_questions
                generated_at := env.now
                schema_version := env.promptVersion
                model_tag := env.modelTag }

/-- Model of `AnalysisService.get_paper_analysis` (lines 497-517): cached
analysis or `None`; every exception is swallowed into `None`. -/
def get_paper_analysis (env : AnalysisEnv) (paper_id : String) : Option PaperAnalysis :=
  match fetch_paper env.fetch paper_id with
  | .error _ => none
  | .ok _ => env.cacheHit

/-- Model of `AnalysisService.compute_key_insights` (lines 519-601).  LLM
attempts fall back, but an HTTPException from fetch/extraction is re-raised
and any other exception during the key-insights phase becomes an
HTTPException 500. -/
def compute_key_insights (env : AnalysisEnv) (paper_id : String) :
    Except HErr PaperAnalysis :=
  let base :=
    match get_paper_analysis env paper_id with
    | some a => Except.ok a
    | none => analyze_paper env paper_id false
  match base with
  | .error e => .error e
  | .ok analysis =>
    match fetch_paper env.fetch paper_id with
    | .error e => .error e
    | .ok _ =>
      match extract_text_with_pages env.loadPages with
      | .error e => .error e
      | .ok (_full_text, page_map) =>
        match env.kiUnexpected with
        | some m => .error ⟨500, .plain ("Key insights computation failed: " ++ m)⟩
        | none =>
          let detected := (detect_figures_and_tables page_map).take 5
          let figures := detected.map
            (fun lp => FigureExplanation.mk lp.1 lp.1
              (invoke_llm_with_retry (env.figureAttempts lp.1) "Unable to generate explanation")
              lp.2)
          let lw := invoke_llm_with_retry env.limAttempts ([], [])
          .ok { analysis with
                key_insights := some ⟨figures, lw.1, lw.2⟩ }

/-- Model of `AnalysisService.compute_in_depth` (lines 603-693).  A missing
prompt template raises `ValueError`, which the catch-all turns into an
HTTPException 500; the LLM attempts themselves fall back. -/
def compute_in_depth (env : AnalysisEnv) (paper_id : String) :
    Except HErr PaperAnalysis :=
  let base :=
    match get_paper_analysis env paper_id with
    | some a => Except.ok a
    | none => analyze_paper env paper_id false
  match base with
  | .error e => .error e
  | .ok analysis =>
    match fetch_paper env.fetch paper_id with
    | .error e => .error e
    | .ok _ =>
      match extract_text_with_pages env.loadPages with
      | .error e => .error e
      | .ok _ =>
        if !env.inDepthTemplateLoaded then
          .error ⟨500, .plain
            "In-depth analysis computation failed: In-depth prompt template not found"⟩
        else
          match env.idUnexpected with
          | some m => .error ⟨500, .plain ("In-depth analysis computation failed: " ++ m)⟩
          | none =>
            let in_depth := invoke_llm_with_retry env.inDepthAttempts fallbackInDepth
            .ok { analysis with in_depth := some in_depth }

/-! ## Concrete instances used by the final theorems -/

/-- Chat environment with an empty uploads directory and otherwise
successful stages. -/
def chatEnvMissing : ChatEnv :=
  { fs := [], arxivFetch := .ok (), processing := .ok ("", []) }

/-- Fetch environment with an empty uploads directory. -/
def fetchEnvEmpty : FetchEnv :=
  { fs := [], fileBytes := fun _ => [], arxivResult := .ok none, download := .ok [], now := 0 }

/-- Fetch environment holding the single uploaded hash `aa`. -/
def fetchEnvAA : FetchEnv :=
  { fs := ["aa"], fileBytes := fun _ => [], arxivResult := .ok none, download := .ok [], now := 0 }

/-- A 15 MiB + 5 byte request body with a valid PDF header. -/
def oversizedPdfBytes : List UInt8 :=
  pdfMagic ++ List.replicate MAX_FILE_SIZE 0x20

/-- A stand-in for `hashlib.sha256(...).hexdigest()` used to evaluate the
ingestion model on concrete bytes. -/
def shaStub : List UInt8 → String := fun _ => "0123456789abcdef"

/-- Concrete `process_uploaded_pdf` environment. -/
def pdfEnvStub : PdfUploadEnv :=
  { loadPdf := .ok ["page text"], llm := fun _ => "", now := 0, filename := none }

/-- Concrete `generate_review` environment: one uploaded paper on disk and
a generation call that raises an ordinary exception. -/
def reviewEnvExc : ReviewEnv :=
  { paper_ids := ["upload_aa"], topic := "t", fs := ["aa"], arxivFetch := .ok []
    extractText := fun _ => .ok "text", now := 0, gen := .exc "boom"
    cleanupSteps := fun _ => 1 }

/-- Analysis environment whose PDF text extraction raises. -/
def analysisEnvExtractFail : AnalysisEnv :=
  { fetch := fetchEnvAA, cacheHit := none, loadPages := .error "bad pdf"
    glanceAttempts := [], questionAttempts := [], figureAttempts := fun _ => []
    limAttempts := [], inDepthAttempts := [], inDepthTemplateLoaded := true
    unexpected := none, kiUnexpected := none, idUnexpected := none
    now := 0, promptVersion := "1.0.0", modelTag := "gemini-2.0-flash" }

/-- A cached base analysis used to isolate the in-depth stage. -/
def analysisStub : PaperAnalysis :=
  { paper := ⟨"upload_aa", "T", [], none, none, "upload"⟩
    at_a_glance := fallbackAtAGlance, key_insights := none
    suggested_questions := [], generated_at := 0
    schema_version := "1.0.0", model_tag := "gemini-2.0-flash" }

/-- Analysis environment with a cached base analysis, successful extraction
and a missing in-depth prompt template. -/
def analysisEnvNoTemplate : AnalysisEnv :=
  { analysisEnvExtractFail with
    cacheHit := some analysisStub, loadPages := .ok ["text"]
    inDepthTemplateLoaded := false }

/-- Analysis environment where fetch and extraction succeed but the
generation/assembly phase raises a non-HTTPException. -/
def analysisEnvUnexpected : AnalysisEnv :=
  { analysisEnvExtractFail with
    loadPages := .ok ["text"], unexpected := some "boom" }

/-! ## Helper lemmas -/

theorem pySplitCharAux_ne_nil (sep : Char) :
    ∀ (l acc : List Char), pySplitCharAux sep l acc ≠ [] := by
  intro l
  induction l with
  | nil => intro acc; simp [pySplitCharAux]
  | cons x xs ih =>
    intro acc
    by_cases h : x == sep <;> simp [pySplitCharAux, h, ih]

theorem pySplitCharAux_head? (sep : Char) :
    ∀ (l acc : List Char),
      (pySplitCharAux sep l acc).head? =
        some (acc.reverse ++ l.takeWhile (fun c => c != sep)) := by
  intro l
  induction l with
  | nil => intro acc; simp [pySplitCharAux]
  | cons x xs ih =>
    intro acc
    cases h : x == sep with
    | true =>
      have h' : x = sep := eq_of_beq h
      simp [pySplitCharAux, h, h', List.takeWhile_cons]
    | false =>
      have h' : ¬(x = sep) := by
        intro hx
        rw [hx] at h
        simp at h
      rw [pySplitCharAux]
      simp only [h, Bool.false_eq_true, if_false, ih (x :: acc), List.takeWhile_cons]
      simp [h', h]

theorem arxivBaseId_eq_takeWhile (s : String) :
    arxivBaseId s = String.mk (s.data.takeWhile (fun c => c != 'v')) := by
  unfold arxivBaseId pySplitChar
  cases hsplit : pySplitCharAux 'v' s.data [] with
  | nil => exact absurd hsplit (pySplitCharAux_ne_nil 'v' s.data [])
  | cons a as =>
    have h := pySplitCharAux_head? 'v' s.data []
    rw [hsplit] at h
    simp only [List.head?_cons, Option.some.injEq, List.reverse_nil, List.nil_append] at h
    simp [h]

theorem takeWhile_append_sep (l m : List Char) :
    (l ++ 'v' :: m).takeWhile (fun c => c != 'v') = l.takeWhile (fun c => c != 'v') := by
  induction l with
  | nil => simp [List.takeWhile_cons]
  | cons c cs ih =>
    by_cases h : c == 'v' <;> simp [List.takeWhile_cons, h, ih]

/-! ## Claim theorems -/

/-- C4: for every arXiv identifier string `x` and every version suffix `v`,
the paper identity computed for `x ++ "v" ++ v` equals the paper identity
computed for `x`: `paper_id.split('v')[0]` is insensitive to appending a
version suffix. -/
theorem arxiv_id_version_insensitive (x v : String) :
    arxivBaseId (x ++ "v" ++ v) = arxivBaseId x := by
  rw [arxivBaseId_eq_takeWhile, arxivBaseId_eq_takeWhile]
  have hd : (x ++ "v" ++ v).data = x.data ++ 'v' :: v.data := by
    rw [String.data_append, String.data_append, List.append_assoc]
    rfl
  rw [hd, takeWhile_append_sep]

/-- C10: the persisted task status enumeration has exactly the four values
pending, running, completed, failed (no `cancelled` variant), and a freshly
created task row has status pending with no result and no error. -/
theorem task_status_enum_and_fresh_pending :
    (∀ s : TaskStatus, s = .pending ∨ s = .running ∨ s = .completed ∨ s = .failed) ∧
    Fintype.card TaskStatus = 4 ∧
    (∀ s : TaskStatus, s.value ≠ "cancelled") ∧
    (∀ (id : String) (uid t : Nat),
      (mkTask id uid t).status = .pending ∧
      (mkTask id uid t).result_data = none ∧
      (mkTask id uid t).error_message = none) := by
  refine ⟨fun s => by cases s <;> simp, by decide, fun s => by cases s <;> decide,
    fun id uid t => ⟨rfl, rfl, rfl⟩⟩

/-- C5: with the backing cache store unreachable, the cache get operation
returns `None` and the cache put operation returns without raising (it
reports `False`), for any key and value. -/
theorem cache_down_degrades_gracefully {α : Type} (parse : String → Option α)
    (encode : α → String) (topic : String) (v : α) (ttl : Nat) :
    get_cached_review parse RedisState.down topic = .ok none ∧
    cache_review encode RedisState.down topic v ttl = .ok (false, RedisState.down) :=
  ⟨rfl, rfl⟩

theorem chunkAnswerAux_nil_of_le (srcs : List Nat) :
    ∀ (fuel : Nat) (l : List Char), l.length ≤ fuel →
      (chunkAnswerAux srcs fuel l = [] ↔ l = []) := by
  intro fuel
  cases fuel with
  | zero =>
    intro l h
    have : l = [] := List.eq_nil_of_length_eq_zero (Nat.le_zero.mp h)
    subst this
    simp [chunkAnswerAux]
  | succ n =>
    intro l _
    cases l with
    | nil => simp [chunkAnswerAux]
    | cons c cs => simp [chunkAnswerAux]

theorem chunkAnswerAux_join :
    ∀ (fuel : Nat) (l : List Char) (srcs : List Nat), l.length ≤ fuel →
      ((chunkAnswerAux srcs fuel l).map (fun f => f.content.data)).foldr (· ++ ·) [] = l := by
  intro fuel
  induction fuel with
  | zero =>
    intro l srcs h
    have : l = [] := List.eq_nil_of_length_eq_zero (Nat.le_zero.mp h)
    subst this
    simp [chunkAnswerAux]
  | succ n ih =>
    intro l srcs h
    cases l with
    | nil => simp [chunkAnswerAux]
    | cons c cs =>
      have hlen : ((c :: cs).drop 100).length ≤ n := by
        simp only [List.length_drop, List.length_cons]
        simp only [List.length_cons] at h
        omega
      simp only [chunkAnswerAux, List.map_cons, List.foldr_cons, ih _ [] hlen]
      exact List.take_append_drop 100 (c :: cs)

theorem chunkAnswerAux_sources_nil :
    ∀ (fuel : Nat) (l : List Char),
      (chunkAnswerAux [] fuel l).map Fragment.sources =
        List.replicate (chunkAnswerAux [] fuel l).length [] := by
  intro fuel
  induction fuel with
  | zero => intro l; simp [chunkAnswerAux]
  | succ n ih =>
    intro l
    cases l with
    | nil => simp [chunkAnswerAux]
    | cons c cs => simp [chunkAnswerAux, ih, List.replicate_succ]

theorem chunkAnswerAux_piece_lengths :
    ∀ (fuel : Nat) (l : List Char) (srcs : List Nat),
      (chunkAnswerAux srcs fuel l).all
        (fun f => decide (0 < f.content.length ∧ f.content.length ≤ 100)) = true := by
  intro fuel
  induction fuel with
  | zero => intro l srcs; simp [chunkAnswerAux]
  | succ n ih =>
    intro l srcs
    cases l with
    | nil => simp [chunkAnswerAux]
    | cons c cs =>
      simp only [chunkAnswerAux, List.all_cons, ih, Bool.and_true]
      simp [String.length, List.length_take]

theorem chunkAnswerAux_dropLast_full :
    ∀ (fuel : Nat) (l : List Char) (srcs : List Nat), l.length ≤ fuel →
      ((chunkAnswerAux srcs fuel l).dropLast).all (fun f => f.content.length == 100) = true := by
  intro fuel
  induction fuel with
  | zero => intro l srcs _; simp [chunkAnswerAux]
  | succ n ih =>
    intro l srcs h
    cases l with
    | nil => simp [chunkAnswerAux]
    | cons c cs =>
      have hlen : ((c :: cs).drop 100).length ≤ n := by
        simp only [List.length_drop, List.length_cons]
        simp only [List.length_cons] at h
        omega
      by_cases hd : (c :: cs).drop 100 = []
      · have hrest : chunkAnswerAux [] n ((c :: cs).drop 100) = [] :=
          (chunkAnswerAux_nil_of_le [] n _ hlen).mpr hd
        simp only [chunkAnswerAux, hrest]
        rfl
      · have hne : chunkAnswerAux [] n ((c :: cs).drop 100) ≠ [] := by
          intro hc
          exact hd ((chunkAnswerAux_nil_of_le [] n _ hlen).mp hc)
        have hlong : 100 ≤ cs.length := by
          by_contra hle
          push_neg at hle
          exact hd (List.drop_eq_nil_of_le (by simp only [List.length_cons]; omega))
        simp only [chunkAnswerAux, List.dropLast_cons_of_ne_nil hne, List.all_cons,
          ih _ [] hlen, Bool.and_true]
        simp [String.length, List.length_take]
        omega

theorem foldr_append_data (ls : List String) :
    (ls.foldr (· ++ ·) "").data = (ls.map String.data).foldr (· ++ ·) [] := by
  induction ls with
  | nil => rfl
  | cons s rest ih => simp [String.data_append, ih]

/-- C8: the streamed chat fragments are consecutive 100-character pieces of
the full answer (each piece non-empty and at most 100 characters, every
piece except the last exactly 100), their concatenation is the full answer,
and the source-page metadata rides only on the first fragment (every later
fragment carries an empty sources list). -/
theorem chat_stream_chunking (answer : String) (srcs : List Nat) :
    ((chunkAnswer answer srcs).map Fragment.content).foldr (· ++ ·) "" = answer ∧
    ((chunkAnswer answer srcs).dropLast).all (fun f => f.content.length == 100) = true ∧
    (chunkAnswer answer srcs).all
      (fun f => decide (0 < f.content.length ∧ f.content.length ≤ 100)) = true ∧
    (chunkAnswer answer srcs).map Fragment.sources =
      (if answer.data.isEmpty then []
       else srcs :: List.replicate ((chunkAnswer answer srcs).length - 1) []) := by
  refine ⟨?_, ?_, ?_, ?_⟩
  · have hdata : (((chunkAnswer answer srcs).map Fragment.content).foldr (· ++ ·) "").data
        = answer.data := by
      rw [foldr_append_data, List.map_map]
      exact chunkAnswerAux_join answer.data.length answer.data srcs (Nat.le_refl _)
    exact congrArg String.mk hdata
  · exact chunkAnswerAux_dropLast_full answer.data.length answer.data srcs (Nat.le_refl _)
  · exact chunkAnswerAux_piece_lengths answer.data.length answer.data srcs
  · unfold chunkAnswer
    cases hl : answer.data with
    | nil => simp [chunkAnswerAux]
    | cons c cs =>
      simp only [List.length_cons, List.isEmpty_cons, if_false]
      simp [chunkAnswerAux, chunkAnswerAux_sources_nil]

/-- C6: a chat request on an upload-marker id whose backing file does not
exist yields exactly one error fragment with an empty sources list and then
terminates; more generally, any stage failure (missing upload, arXiv fetch
failure, processing failure) yields exactly one fragment, with empty
sources, instead of propagating an exception out of the generator. -/
theorem chat_stream_stage_failure_single_fragment (env : ChatEnv) (paper_id : String)
    (hfail :
      (pyStartsWith paper_id "upload_" = true ∧
        env.fs.contains (pyReplaceAll paper_id "upload_") = false) ∨
      (pyStartsWith paper_id "upload_" = false ∧ env.arxivFetch.isOk = false) ∨
      env.processing.isOk = false) :
    (chat_with_paper_stream env paper_id).1.length = 1 ∧
    ((chat_with_paper_stream env paper_id).1.all (fun f => f.sources.isEmpty)) = true ∧
    (pyStartsWith paper_id "upload_" = true →
      env.fs.contains (pyReplaceAll paper_id "upload_") = false →
      (chat_with_paper_stream env paper_id).1 =
        [⟨"Error: Uploaded PDF file not found", []⟩]) := by
  have hsingle : ∃ msg, (chat_with_paper_stream env paper_id).1 = [⟨msg, []⟩] := by
    by_cases hu : pyStartsWith paper_id "upload_" = true
    · by_cases hc : env.fs.contains (pyReplaceAll paper_id "upload_") = true
      · have hmem : pyReplaceAll paper_id "upload_" ∈ env.fs := by simpa using hc
        cases hp : env.processing with
        | ok v =>
          exfalso
          rcases hfail with ⟨_, h2⟩ | ⟨h1, _⟩ | h3
          · rw [hc] at h2; cases h2
          · rw [hu] at h1; cases h1
          · rw [hp] at h3; simp [Except.isOk, Except.toBool] at h3
        | error m =>
          exact ⟨"Error processing document: " ++ m,
            by simp [chat_with_paper_stream, hu, hmem, hp]⟩
      · have hmem : pyReplaceAll paper_id "upload_" ∉ env.fs := by simpa using hc
        exact ⟨"Error: Uploaded PDF file not found",
          by simp [chat_with_paper_stream, hu, hmem]⟩
    · cases ha : env.arxivFetch with
      | error m =>
        exact ⟨"Error fetching paper: " ++ m, by simp [chat_with_paper_stream, hu, ha]⟩
      | ok u =>
        cases hp : env.processing with
        | ok v =>
          exfalso
          rcases hfail with ⟨h1, _⟩ | ⟨_, h2⟩ | h3
          · exact hu h1
          · rw [ha] at h2; simp [Except.isOk, Except.toBool] at h2
          · rw [hp] at h3; simp [Except.isOk, Except.toBool] at h3
        | error m =>
          exact ⟨"Error processing document: " ++ m,
            by simp [chat_with_paper_stream, hu, ha, hp]⟩
  obtain ⟨msg, hmsg⟩ := hsingle
  refine ⟨by rw [hmsg]; rfl, by rw [hmsg]; rfl, ?_⟩
  intro hu hc
  have hmem : pyReplaceAll paper_id "upload_" ∉ env.fs := by simpa using hc
  simp [chat_with_paper_stream, hu, hmem]

/-- Witness for C6: a chat request on the nonexistent `upload_deadbeef`
yields exactly the one "file not found" fragment with empty sources. -/
theorem chat_stream_missing_upload_witness :
    (chat_with_paper_stream chatEnvMissing "upload_deadbeef").1 =
      [⟨"Error: Uploaded PDF file not found", []⟩] ∧
    (chat_with_paper_stream chatEnvMissing "upload_deadbeef").1.length = 1 := by
  have h := chat_stream_stage_failure_single_fragment chatEnvMissing "upload_deadbeef"
    (Or.inl ⟨by decide, by decide⟩)
  exact ⟨h.2.2 (by decide) (by decide), h.1⟩

/-- C7: an upload marker whose backing file has been deleted resolves to a
"not found" failure in every downstream lookup — HTTP 404 from the
single-paper fetch, a single error fragment from chat, and a silent skip in
the multi-paper upload lookup — never an uncaught crash; the hash extraction
from the marker itself is a total computation that never consults the file
system. -/
theorem dangling_upload_resolves_not_found (fenv : FetchEnv) (cenv : ChatEnv)
    (extractText : String → Except String String) (now : Nat) (pid : String)
    (hup : pyStartsWith pid "upload_" = true)
    (hf : fenv.fs.contains (pyReplaceAll pid "upload_") = false)
    (hc : cenv.fs.contains (pyReplaceAll pid "upload_") = false) :
    fetch_paper fenv pid = .error ⟨404, .plain ("Uploaded paper not found: " ++ pid)⟩ ∧
    (chat_with_paper_stream cenv pid).1 =
      [⟨"Error: Uploaded PDF file not found", []⟩] ∧
    get_uploaded_papers extractText now fenv.fs [pid] = .ok [] := by
  have hmemF : pyReplaceAll pid "upload_" ∉ fenv.fs := by simpa using hf
  have hmemC : pyReplaceAll pid "upload_" ∉ cenv.fs := by simpa using hc
  refine ⟨?_, ?_, ?_⟩
  · simp [fetch_paper, hup, hmemF]
  · simp [chat_with_paper_stream, hup, hmemC]
  · simp [get_uploaded_papers, hup, hmemF]

/-- Witness for C7: the dangling `upload_deadbeef` marker yields HTTP 404
from the paper fetch and the single error fragment from chat. -/
theorem dangling_upload_witness :
    fetch_paper fetchEnvEmpty "upload_deadbeef" =
      .error ⟨404, .plain ("Uploaded paper not found: " ++ "upload_deadbeef")⟩ ∧
    get_uploaded_papers (fun _ => .ok "") 0 fetchEnvEmpty.fs ["upload_deadbeef"] = .ok [] := by
  have h := dangling_upload_resolves_not_found fetchEnvEmpty chatEnvMissing
    (fun _ => .ok "") 0 "upload_deadbeef" (by decide) (by decide) (by decide)
  exact ⟨h.1, h.2.2⟩

theorem readChunksAux_sum :
    ∀ (fuel : Nat) (l : List UInt8), l.length ≤ fuel →
      ((readChunksAux fuel l).map List.length).sum = l.length := by
  intro fuel
  induction fuel with
  | zero =>
    intro l h
    have : l = [] := List.eq_nil_of_length_eq_zero (Nat.le_zero.mp h)
    subst this
    simp [readChunksAux]
  | succ n ih =>
    intro l h
    cases l with
    | nil => simp [readChunksAux]
    | cons b bs =>
      have hlen : ((b :: bs).drop 1048576).length ≤ n := by
        simp only [List.length_drop, List.length_cons]
        simp only [List.length_cons] at h
        omega
      simp only [readChunksAux, List.map_cons, List.sum_cons, ih _ hlen,
        List.length_take, List.length_drop, List.length_cons]
      omega

theorem readChunksAux_nonempty :
    ∀ (fuel : Nat) (l c : List UInt8), c ∈ readChunksAux fuel l → c ≠ [] := by
  intro fuel
  induction fuel with
  | zero => intro l c hc; simp [readChunksAux] at hc
  | succ n ih =>
    intro l c hc
    cases l with
    | nil => simp [readChunksAux] at hc
    | cons b bs =>
      simp only [readChunksAux, List.mem_cons] at hc
      rcases hc with hc | hc
      · subst hc; simp
      · exact ih _ _ hc

theorem writeChunks_aborted (limit : Nat) :
    ∀ (chunks : List (List UInt8)) (file_size : Nat), file_size ≤ limit →
      (∀ c ∈ chunks, c ≠ []) →
      limit < file_size + ((chunks.map List.length).sum) →
      (writeChunks limit file_size chunks).2 = true := by
  intro chunks
  induction chunks with
  | nil =>
    intro fs hle _ hlt
    simp at hlt
    omega
  | cons c rest ih =>
    intro fs hle hne hlt
    have hcne : c ≠ [] := hne c (List.mem_cons_self c rest)
    have hcne' : c.isEmpty = false := by
      cases c with
      | nil => exact absurd rfl hcne
      | cons x xs => rfl
    by_cases hcross : limit < fs + c.length
    · simp [writeChunks, hcne', hcross]
    · have hfs' : fs + c.length ≤ limit := Nat.le_of_not_lt hcross
      have hlt' : limit < (fs + c.length) + ((rest.map List.length).sum) := by
        simp only [List.map_cons, List.sum_cons] at hlt
        omega
      simp [writeChunks, hcne', hcross,
        ih (fs + c.length) hfs' (fun d hd => hne d (List.mem_cons_of_mem c hd)) hlt']

theorem writeChunks_written_le (limit : Nat) :
    ∀ (chunks : List (List UInt8)) (file_size : Nat), file_size ≤ limit →
      file_size + (writeChunks limit file_size chunks).1.length ≤ limit := by
  intro chunks
  induction chunks with
  | nil => intro fs h; simpa [writeChunks] using h
  | cons c rest ih =>
    intro fs h
    by_cases hemp : c.isEmpty
    · simpa [writeChunks, hemp] using h
    · by_cases hcross : limit < fs + c.length
      · simpa [writeChunks, hemp, hcross] using h
      · have hfs' : fs + c.length ≤ limit := Nat.le_of_not_lt hcross
        have := ih (fs + c.length) hfs'
        simp only [writeChunks, hemp, hcross, if_false, Bool.false_eq_true,
          List.length_append]
        omega

/-- C3: a PDF upload whose body exceeds the 15 MiB ceiling fails with a
validation error; the streaming copy aborts the moment the ceiling is
crossed (never writing more than the ceiling to disk) and the temp file is
removed before the request finishes, so no partial file remains. -/
theorem upload_oversize_rejected (fname : String) (bytes : List UInt8)
    (proc : Except HErr Paper)
    (hne : fname ≠ "")
    (hext : pyEndsWith (pyLower fname) ".pdf" = true)
    (hmagic : is_valid_pdf (bytes.take 2048) = true)
    (hsize : MAX_FILE_SIZE < bytes.length) :
    (upload_pdf (some fname) bytes proc).result =
      .error (raise_validation_error
        "File size exceeds the maximum allowed size of 15MB" "VALIDATION_ERROR") ∧
    (writeChunks MAX_FILE_SIZE 0 (readChunks bytes)).2 = true ∧
    (upload_pdf_body (some fname) bytes proc).written.length ≤ MAX_FILE_SIZE ∧
    (upload_pdf (some fname) bytes proc).tempFile = none := by
  have hsum : ((readChunks bytes).map List.length).sum = bytes.length :=
    readChunksAux_sum bytes.length bytes (Nat.le_refl _)
  have habort : (writeChunks MAX_FILE_SIZE 0 (readChunks bytes)).2 = true := by
    refine writeChunks_aborted MAX_FILE_SIZE (readChunks bytes) 0 (Nat.zero_le _)
      (fun c hc => readChunksAux_nonempty bytes.length bytes c hc) ?_
    rw [hsum]
    omega
  have hwle : (writeChunks MAX_FILE_SIZE 0 (readChunks bytes)).1.length ≤ MAX_FILE_SIZE := by
    have := writeChunks_written_le MAX_FILE_SIZE (readChunks bytes) 0 (Nat.zero_le _)
    omega
  refine ⟨?_, habort, ?_, rfl⟩
  · simp [upload_pdf, upload_pdf_body, hne, hext, hmagic, habort]
  · simpa [upload_pdf_body, hne, hext, hmagic, habort] using hwle

/-- Witness for C3: a 15 MiB + 5 byte upload with a valid PDF header is
rejected with the size validation error and leaves no temp file behind. -/
theorem upload_oversize_witness :
    (upload_pdf (some "big.pdf") oversizedPdfBytes (.error ⟨500, .plain "unused"⟩)).result =
      .error (raise_validation_error
        "File size exceeds the maximum allowed size of 15MB" "VALIDATION_ERROR") ∧
    (upload_pdf (some "big.pdf") oversizedPdfBytes (.error ⟨500, .plain "unused"⟩)).tempFile
      = none := by
  have hmagic : is_valid_pdf (oversizedPdfBytes.take 2048) = true := by
    have ht : oversizedPdfBytes.take 2048 = pdfMagic ++ List.replicate 2043 0x20 := by
      rw [oversizedPdfBytes, List.take_append_eq_append_take,
        List.take_of_length_le (l := pdfMagic) (by decide),
        show (2048 - pdfMagic.length) = 2043 from by decide, List.take_replicate,
        show min 2043 MAX_FILE_SIZE = 2043 from by decide]
    rw [ht]
    unfold is_valid_pdf
    rw [List.length_append, List.length_replicate, List.take_append_eq_append_take,
      List.take_of_length_le (l := pdfMagic) (by decide),
      show (8 - pdfMagic.length) = 3 from by decide, List.take_replicate,
      show min 3 2043 = 3 from by decide]
    decide
  have hsize : MAX_FILE_SIZE < oversizedPdfBytes.length := by
    rw [oversizedPdfBytes, List.length_append, List.length_replicate]
    decide
  have h := upload_oversize_rejected "big.pdf" oversizedPdfBytes
    (.error ⟨500, .plain "unused"⟩) (by decide) (by decide) hmagic hsize
  exact ⟨h.1, h.2.2.2⟩

/-- C9: upload identity is deterministic and depends only on the raw bytes:
whenever two ingestion runs of the same PDF bytes succeed — regardless of
wall clock, filename, extracted page text or LLM response — they produce
the same `upload_` identity, namely the `upload_` marker over the first 10
hex characters of the byte hash, and the same content-hash-derived storage
path. -/
theorem process_uploaded_pdf_deterministic (sha : List UInt8 → String)
    (e₁ e₂ : PdfUploadEnv) (fs₁ fs₂ : List String) (content : List UInt8)
    (p₁ p₂ : Paper)
    (h₁ : (process_uploaded_pdf sha e₁ fs₁ content).1 = .ok p₁)
    (h₂ : (process_uploaded_pdf sha e₂ fs₂ content).1 = .ok p₂) :
    p₁.id = p₂.id ∧ p₁.id = "upload_" ++ pyTake 10 (sha content) ∧
    p₁.url = p₂.url ∧
    p₁.url = some ("/uploads/" ++ pyTake 10 (sha content) ++ ".pdf") := by
  cases hl₁ : e₁.loadPdf with
  | error m => simp [process_uploaded_pdf, hl₁] at h₁
  | ok pages₁ =>
    cases hl₂ : e₂.loadPdf with
    | error m => simp [process_uploaded_pdf, hl₂] at h₂
    | ok pages₂ =>
      simp only [process_uploaded_pdf, hl₁, Except.ok.injEq] at h₁
      simp only [process_uploaded_pdf, hl₂, Except.ok.injEq] at h₂
      subst h₁
      subst h₂
      exact ⟨rfl, rfl, rfl, rfl⟩

/-- Witness for C9: ingesting the empty byte string in a concrete
environment yields the identity derived from the first 10 hex characters of
its hash. -/
theorem process_uploaded_pdf_witness :
    Paper.id ⟨"upload_0123456789", "Research Paper", ["Unknown Author"],
        "No summary available.", 0, some "/uploads/0123456789.pdf"⟩ =
      "upload_" ++ pyTake 10 (shaStub []) ∧
    Paper.url ⟨"upload_0123456789", "Research Paper", ["Unknown Author"],
        "No summary available.", 0, some "/uploads/0123456789.pdf"⟩ =
      some ("/uploads/" ++ pyTake 10 (shaStub []) ++ ".pdf") := by
  have h := process_uploaded_pdf_deterministic shaStub pdfEnvStub pdfEnvStub [] [] []
    ⟨"upload_0123456789", "Research Paper", ["Unknown Author"],
      "No summary available.", 0, some "/uploads/0123456789.pdf"⟩
    ⟨"upload_0123456789", "Research Paper", ["Unknown Author"],
      "No summary available.", 0, some "/uploads/0123456789.pdf"⟩
    (by decide) (by decide)
  exact ⟨h.2.1, h.2.2.2⟩

theorem mem_of_mem_removeUpload (fs : List String) (pid y : String)
    (hy : y ∈ removeUpload fs pid) : y ∈ fs := by
  simp only [removeUpload] at hy
  split at hy
  · split at hy
    · exact List.mem_of_mem_filter hy
    · exact hy
  · exact hy

theorem mem_of_mem_cleanup :
    ∀ (ids : List String) (fs : List String) (y : String),
      y ∈ cleanup_uploaded_pdfs ids fs → y ∈ fs := by
  intro ids
  induction ids with
  | nil => intro fs y hy; exact hy
  | cons pid rest ih =>
    intro fs y hy
    unfold cleanup_uploaded_pdfs at hy
    rw [List.foldl_cons] at hy
    exact mem_of_mem_removeUpload fs pid y (ih (removeUpload fs pid) y hy)

theorem removeUpload_removes (fs : List String) (pid : String)
    (hstart : pyStartsWith pid "upload_" = true) :
    pyReplaceAll pid "upload_" ∉ removeUpload fs pid := by
  simp only [removeUpload]
  rw [if_pos hstart]
  split
  · intro hmem
    have := List.mem_filter.mp hmem
    simp at this
  · intro hmem
    rename_i hcon
    rw [Bool.not_eq_true] at hcon
    have : pyReplaceAll pid "upload_" ∉ fs := by simpa using hcon
    exact this hmem

theorem cleanup_removes :
    ∀ (ids : List String) (fs : List String) (pid : String),
      pid ∈ ids → pyStartsWith pid "upload_" = true →
      pyReplaceAll pid "upload_" ∉ cleanup_uploaded_pdfs ids fs := by
  intro ids
  induction ids with
  | nil => intro fs pid hmem; exact absurd hmem (List.not_mem_nil pid)
  | cons q rest ih =>
    intro fs pid hmem hstart
    unfold cleanup_uploaded_pdfs
    rw [List.foldl_cons]
    rcases List.mem_cons.mp hmem with heq | hmem'
    · subst heq
      intro hc
      exact removeUpload_removes fs pid hstart
        (mem_of_mem_cleanup rest (removeUpload fs pid) _ hc)
    · exact ih (removeUpload fs q) pid hmem' hstart

theorem cleanupAttempt_removes (k : Nat) (ids : List String) (fs : List String)
    (pid : String) (hk : ids.length ≤ k) (hmem : pid ∈ ids)
    (hstart : pyStartsWith pid "upload_" = true) :
    pyReplaceAll pid "upload_" ∉ cleanupAttempt k ids fs := by
  unfold cleanupAttempt
  rw [List.take_of_length_le hk]
  exact cleanup_removes ids fs pid hmem hstart

theorem generate_review_fst (env : ReviewEnv) :
    (generate_review env).1 = reviewPrimary env := by
  by_cases h0 : env.paper_ids.isEmpty = true
  · simp only [generate_review, reviewPrimary]
    rw [if_pos h0]
    rw [if_pos h0]
  · cases harx : (if (env.paper_ids.filter (fun pid => !(pyStartsWith pid "upload_"))).isEmpty
        then Except.ok ([] : List Paper) else env.arxivFetch) with
    | error e =>
      simp only [generate_review, reviewPrimary]
      rw [if_neg h0]
      simp only [harx]
      rw [if_neg h0]
    | ok aps =>
      cases hup : (if (env.paper_ids.filter (fun pid => pyStartsWith pid "upload_")).isEmpty
            then Except.ok ([] : List Paper)
            else get_uploaded_papers env.extractText env.now env.fs
              (env.paper_ids.filter (fun pid => pyStartsWith pid "upload_"))) with
      | error e =>
        simp only [generate_review, reviewPrimary]
        rw [if_neg h0]
        simp only [harx, hup]
        rw [if_neg h0]
      | ok ups =>
        by_cases hemp : (aps ++ ups).isEmpty = true
        · simp only [generate_review, reviewPrimary]
          rw [if_neg h0]
          simp only [harx, hup]
          rw [if_pos hemp]
          rw [if_neg h0]
          rw [if_pos hemp]
        · cases hg : env.gen <;>
          · simp only [generate_review, reviewPrimary]
            rw [if_neg h0]
            simp only [harx, hup]
            rw [if_neg hemp]
            simp only [hg]
            rw [if_neg h0]
            rw [if_neg hemp]

/-- C1: whenever a review-generation request names uploaded papers and the
cleanup loop itself is not interrupted, the files backing those upload
identities are gone from the uploads directory on every exit path — normal
success, every caught-exception branch, the internal-error catch-all and
even an uncaught `BaseException` reaching only the `finally` block — and
the response seen by the caller is completely independent of how the
cleanup calls fare, so a cleanup failure is never surfaced as the request's
failure. -/
theorem generate_review_cleanup_guarantee (env : ReviewEnv)
    (hok : ∀ i, (env.paper_ids.filter (fun pid => pyStartsWith pid "upload_")).length ≤
      env.cleanupSteps i) :
    (∀ pid ∈ env.paper_ids, pyStartsWith pid "upload_" = true →
      ((generate_review env).2.contains (pyReplaceAll pid "upload_")) = false) ∧
    (∀ ks : Nat → Nat,
      (generate_review { env with cleanupSteps := ks }).1 = (generate_review env).1) := by
  constructor
  · intro pid hpid hstart
    have hpidf : pid ∈ env.paper_ids.filter (fun q => pyStartsWith q "upload_") :=
      List.mem_filter.mpr ⟨hpid, hstart⟩
    have hne : (env.paper_ids.filter (fun q => pyStartsWith q "upload_")).isEmpty = false := by
      have hnn := List.ne_nil_of_mem hpidf
      cases hfil : env.paper_ids.filter (fun q => pyStartsWith q "upload_") with
      | nil => exact absurd hfil hnn
      | cons a as => rfl
    have h2 : (generate_review env).2 =
        cleanupAttempt (env.cleanupSteps 1)
          (env.paper_ids.filter (fun q => pyStartsWith q "upload_"))
          (cleanupAttempt (env.cleanupSteps 0)
            (env.paper_ids.filter (fun q => pyStartsWith q "upload_")) env.fs) ∨
        (generate_review env).2 =
          cleanupAttempt (env.cleanupSteps 0)
            (env.paper_ids.filter (fun q => pyStartsWith q "upload_")) env.fs := by
      simp only [generate_review, hne, Bool.false_eq_true, if_false]
      repeat first
        | exact Or.inl rfl
        | exact Or.inr rfl
        | split
    have hnot : pyReplaceAll pid "upload_" ∉ (generate_review env).2 := by
      rcases h2 with h2 | h2 <;> rw [h2]
      · exact cleanupAttempt_removes _ _ _ pid (hok 1) hpidf hstart
      · exact cleanupAttempt_removes _ _ _ pid (hok 0) hpidf hstart
    simpa using hnot
  · intro ks
    rw [generate_review_fst, generate_review_fst]
    rfl

/-- Witness for C1: a request naming the uploaded paper `upload_aa` whose
generation raises an ordinary exception still leaves no `aa` file behind,
and its response does not change when every cleanup call is interrupted at
step zero. -/
theorem generate_review_cleanup_witness :
    ((generate_review reviewEnvExc).2.contains (pyReplaceAll "upload_aa" "upload_")) = false ∧
    (generate_review { reviewEnvExc with cleanupSteps := fun _ => 0 }).1 =
      (generate_review reviewEnvExc).1 := by
  have h := generate_review_cleanup_guarantee reviewEnvExc (by
    intro i
    show (List.filter (fun pid => pyStartsWith pid "upload_") reviewEnvExc.paper_ids).length ≤ 1
    decide)
  exact ⟨h.1 "upload_aa" (by decide) (by decide), h.2 (fun _ => 0)⟩

/-- Counterexample for C2: with the paper `upload_aa` fetched successfully,
a PDF text-extraction failure makes `analyze_paper` and
`compute_key_insights` return a hard HTTP 400 failure, and a missing
in-depth prompt template makes `compute_in_depth` return a hard HTTP 500 —
not the claimed fallback payloads. -/
theorem analysis_hard_failure_counterexample :
    fetch_paper analysisEnvExtractFail.fetch "upload_aa" =
      .ok (⟨"upload_aa", "Uploaded Paper", ["Unknown"], "", 0,
            some ("/uploads/" ++ "aa" ++ ".pdf")⟩, []) ∧
    analyze_paper analysisEnvExtractFail "upload_aa" false =
      .error ⟨400, .plain ("Failed to extract text from PDF: " ++ "bad pdf")⟩ ∧
    compute_key_insights analysisEnvExtractFail "upload_aa" =
      .error ⟨400, .plain ("Failed to extract text from PDF: " ++ "bad pdf")⟩ ∧
    compute_in_depth analysisEnvNoTemplate "upload_aa" =
      .error ⟨500, .plain
        "In-depth analysis computation failed: In-depth prompt template not found"⟩ := by
  refine ⟨by decide, by decide, by decide, by decide⟩

/-- C2 (amended): once the paper was fetched successfully AND its PDF text
extraction succeeded, `analyze_paper` never returns a hard failure — on a
cache hit or a successful LLM phase it returns a real analysis, and on any
non-HTTPException generation/assembly failure it returns the clearly
labelled "Unable to extract ..." fallback payload preserving the fetched
paper metadata.  (An extraction failure itself, and any generation-stage
failure inside `compute_key_insights` / `compute_in_depth`, propagates as a
hard HTTP error, as the counterexample shows.) -/
theorem analyze_paper_fallback_over_failure (env : AnalysisEnv) (paper_id : String)
    (force_refresh : Bool) (p : Paper) (b : List UInt8) (t : String)
    (pm : List (Nat × String))
    (hfetch : fetch_paper env.fetch paper_id = .ok (p, b))
    (hext : extract_text_with_pages env.loadPages = .ok (t, pm)) :
    (∃ a, analyze_paper env paper_id force_refresh = .ok a) ∧
    (∀ m, env.unexpected = some m →
      (if force_refresh then none else env.cacheHit) = none →
      analyze_paper env paper_id force_refresh = .ok
        { paper := metadataOf paper_id p
          at_a_glance := fallbackAtAGlance
          key_insights := none
          suggested_questions := fallbackSuggestedQuestions
          generated_at := env.now
          schema_version := env.promptVersion
          model_tag := env.modelTag }) := by
  constructor
  · cases hch : (if force_refresh then none else env.cacheHit) with
    | some cached =>
      exact ⟨cached, by simp only [analyze_paper, hfetch, hch]⟩
    | none =>
      cases hu : env.unexpected with
      | some m =>
        exact ⟨{ paper := metadataOf paper_id p
                 at_a_glance := fallbackAtAGlance
                 key_insights := none
                 suggested_questions := fallbackSuggestedQuestions
                 generated_at := env.now
                 schema_version := env.promptVersion
                 model_tag := env.modelTag },
          by simp only [analyze_paper, hfetch, hch, hext, hu]⟩
      | none =>
        exact ⟨{ paper := metadataOf paper_id p
                 at_a_glance := invoke_llm_with_retry env.glanceAttempts fallbackAtAGlance
                 key_insights := none
                 suggested_questions :=
                   invoke_llm_with_retry env.questionAttempts fallbackSuggestedQuestions
                 generated_at := env.now
                 schema_version := env.promptVersion
                 model_tag := env.modelTag },
          by simp only [analyze_paper, hfetch, hch, hext, hu]⟩
  · intro m hm hnone
    simp only [analyze_paper, hfetch, hnone, hext, hm]

/-- Witness for C2 (amended): on `upload_aa` with extraction succeeding and
an unexpected generation failure, `analyze_paper` returns the labelled
fallback payload with the fetched metadata. -/
theorem analyze_paper_fallback_witness :
    analyze_paper analysisEnvUnexpected "upload_aa" false = .ok
      { paper := metadataOf "upload_aa"
          ⟨"upload_aa", "Uploaded Paper", ["Unknown"], "", 0,
            some ("/uploads/" ++ "aa" ++ ".pdf")⟩
        at_a_glance := fallbackAtAGlance
        key_insights := none
        suggested_questions := fallbackSuggestedQuestions
        generated_at := analysisEnvUnexpected.now
        schema_version := analysisEnvUnexpected.promptVersion
        model_tag := analysisEnvUnexpected.modelTag } := by
  have h := analyze_paper_fallback_over_failure analysisEnvUnexpected "upload_aa" false
    ⟨"upload_aa", "Uploaded Paper", ["Unknown"], "", 0, some ("/uploads/" ++ "aa" ++ ".pdf")⟩
    [] (pageConcat 0 ["text"]) (pageMap ["text"]) (by decide) rfl
  exact h.2 "boom" rfl rfl
